import Mathlib

/-!
Verification of the core logic of `random_meme.py` (random meme wallpaper
setter).  Each Python function used by the claims is embedded as a Lean
definition, with external effects (HTTP responses, font rendering, OS probes)
passed in as explicit parameters.  Python floats are modelled by exact
rationals, Python `int()` truncation by `pyInt`, and Python list slicing
`l[-n:]` by `pySliceLast`.
-/

namespace RandomMeme

/-- Python `int()` applied to a (real-valued) quantity: truncation toward
zero.  For nonnegative arguments this is the floor. -/
def pyInt (q : ℚ) : ℤ :=
  if 0 ≤ q then ⌊q⌋ else ⌈q⌉

/-- Python slice `l[-n:]`: the last `n` elements.  Faithful to Python also at
`n = 0`, where `l[-0:] = l[0:]` is the whole list. -/
def pySliceLast (n : ℕ) (l : List String) : List String :=
  if n = 0 then l else l.drop (l.length - n)

/-- `MAX_HISTORY = get_setting('max_history')`; with no settings file present
this is `DEFAULT_SETTINGS["max_history"] = 100` (random_meme.py line 133). -/
def MAX_HISTORY : ℕ := 100

/-- The append-and-truncate step of `get_random_meme`
(random_meme.py lines 93-95):
`history.append(meme_url); if len(history) > MAX_HISTORY: history = history[-MAX_HISTORY:]`.
The result is exactly the list passed to `save_history` on line 96. -/
def updateHistory (history : List String) (url : String) : List String :=
  let h := history ++ [url]
  if h.length > MAX_HISTORY then pySliceLast MAX_HISTORY h else h

/-- `pySliceLast` with a positive count is a drop from the front. -/
lemma pySliceLast_pos (n : ℕ) (l : List String) (hn : n ≠ 0) :
    pySliceLast n l = l.drop (l.length - n) := by
  simp [pySliceLast, hn]

/-- C1: For every history list and every newly appended URL, the persisted
history (append then truncate) has length at most `MAX_HISTORY`, is a suffix
of the appended list (so it consists of the most recently appended entries in
their original oldest-first order, with the new URL last), and whenever the
appended list is longer than `MAX_HISTORY` the persisted history has length
exactly `MAX_HISTORY`. -/
theorem updateHistory_bounded (history : List String) (url : String) :
    (updateHistory history url).length ≤ MAX_HISTORY ∧
    List.IsSuffix (updateHistory history url) (history ++ [url]) ∧
    (updateHistory history url).getLast? = some url ∧
    (MAX_HISTORY < (history ++ [url]).length →
      (updateHistory history url).length = MAX_HISTORY) := by
  have hlen : (history ++ [url]).length = history.length + 1 := by simp
  simp only [updateHistory, MAX_HISTORY]
  by_cases hl : (history ++ [url]).length > 100
  · rw [if_pos hl, pySliceLast_pos 100 _ (by decide)]
    have hk : (history ++ [url]).length - 100 ≤ history.length := by omega
    refine ⟨?_, List.drop_suffix _ _, ?_, fun _ => ?_⟩
    · rw [List.length_drop]; omega
    · rw [List.drop_append_of_le_length hk]; simp
    · rw [List.length_drop]; omega
  · rw [if_neg hl]
    exact ⟨by omega, List.suffix_refl _, by simp, fun h2 => absurd h2 hl⟩

/-- Witness for C1: a history already at the bound gets truncated back to
exactly `MAX_HISTORY` entries after the append. -/
theorem updateHistory_bounded_witness :
    MAX_HISTORY < (List.replicate 100 "x" ++ ["y"]).length ∧
    (updateHistory (List.replicate 100 "x") "y").length = MAX_HISTORY :=
  ⟨by simp [MAX_HISTORY],
    (updateHistory_bounded (List.replicate 100 "x") "y").2.2.2
      (by simp [MAX_HISTORY])⟩

/-! ## Display Fitter (`resize_image`, random_meme.py lines 206-244) -/

/-- Scaled dimensions computed by `resize_image` (lines 218-229):
`original_ratio = width/height`, `target_ratio = target_width/target_height`;
if `target_ratio > original_ratio` then
`(int(target_height * original_ratio), target_height)` else
`(target_width, int(target_width / original_ratio))`. -/
def scaled_size (w h tW tH : ℕ) : ℕ × ℕ :=
  if ((tW : ℚ) / (tH : ℚ)) > ((w : ℚ) / (h : ℚ)) then
    ((pyInt ((tH : ℚ) * ((w : ℚ) / (h : ℚ)))).toNat, tH)
  else
    (tW, (pyInt ((tW : ℚ) / ((w : ℚ) / (h : ℚ)))).toNat)

/-- Scaled dimensions as the spec sentence words them: the non-target
dimension is obtained by rounding to nearest. -/
def scaled_size_spec_round (w h tW tH : ℕ) : ℕ × ℕ :=
  if ((tW : ℚ) / (tH : ℚ)) > ((w : ℚ) / (h : ℚ)) then
    ((round ((tH : ℚ) * ((w : ℚ) / (h : ℚ)))).toNat, tH)
  else
    (tW, (round ((tW : ℚ) / ((w : ℚ) / (h : ℚ)))).toNat)

/-- Scaled dimensions with the amended wording: the non-target dimension is
obtained by truncation (floor, since the quantity is nonnegative), which is
what Python `int()` does. -/
def scaled_size_spec_floor (w h tW tH : ℕ) : ℕ × ℕ :=
  if ((tW : ℚ) / (tH : ℚ)) > ((w : ℚ) / (h : ℚ)) then
    ((⌊(tH : ℚ) * ((w : ℚ) / (h : ℚ))⌋).toNat, tH)
  else
    (tW, (⌊(tW : ℚ) / ((w : ℚ) / (h : ℚ))⌋).toNat)

/-- The geometry of the image produced by `resize_image`
(random_meme.py lines 206-244): a canvas of exactly the target size, with the
scaled image pasted at the centering offsets computed by Python floor
division `//`. -/
structure FittedImage where
  width : ℕ
  height : ℕ
  pasteX : ℤ
  pasteY : ℤ
  scaledW : ℕ
  scaledH : ℕ
deriving DecidableEq

/-- `resize_image` (lines 206-244): scale per `scaled_size`, create a black
canvas of the target size (`Image.new`), and paste the scaled image at
`((target_width - new_width) // 2, (target_height - new_height) // 2)`. -/
def resize_image (w h tW tH : ℕ) : FittedImage :=
  let s := scaled_size w h tW tH
  { width := tW
    height := tH
    pasteX := Int.fdiv ((tW : ℤ) - (s.1 : ℤ)) 2
    pasteY := Int.fdiv ((tH : ℤ) - (s.2 : ℤ)) 2
    scaledW := s.1
    scaledH := s.2 }

/-- `pyInt` agrees with the floor on nonnegative quantities. -/
lemma pyInt_eq_floor {q : ℚ} (hq : 0 ≤ q) : pyInt q = ⌊q⌋ := if_pos hq

/-- The scaled dimensions never exceed the target dimensions. -/
lemma scaled_size_le (w h tW tH : ℕ) (hw : 0 < w) (hh : 0 < h) (htH : 0 < tH) :
    (scaled_size w h tW tH).1 ≤ tW ∧ (scaled_size w h tW tH).2 ≤ tH := by
  have htH' : (0 : ℚ) < (tH : ℚ) := by exact_mod_cast htH
  unfold scaled_size
  split
  case isTrue hgt =>
    refine ⟨?_, le_refl tH⟩
    simp only
    rw [pyInt_eq_floor (by positivity)]
    have hlt : (tH : ℚ) * ((w : ℚ) / (h : ℚ)) < (tW : ℚ) := by
      have h2 := mul_lt_mul_of_pos_left hgt htH'
      have h3 : (tH : ℚ) * ((tW : ℚ) / (tH : ℚ)) = (tW : ℚ) := by field_simp
      rw [h3] at h2
      exact h2
    have hfl : ⌊(tH : ℚ) * ((w : ℚ) / (h : ℚ))⌋ < ((tW : ℕ) : ℤ) := by
      rw [Int.floor_lt]
      exact_mod_cast hlt
    exact Int.toNat_le.mpr (le_of_lt hfl)
  case isFalse hle =>
    refine ⟨le_refl tW, ?_⟩
    simp only
    rw [pyInt_eq_floor (by positivity)]
    have hwh : (0 : ℚ) < (w : ℚ) / (h : ℚ) := by positivity
    have hle2 : (tW : ℚ) / (tH : ℚ) ≤ (w : ℚ) / (h : ℚ) := not_lt.mp hle
    have hq : (tW : ℚ) / ((w : ℚ) / (h : ℚ)) ≤ (tH : ℚ) := by
      rw [div_le_iff₀ hwh]
      have h4 := (div_le_iff₀ htH').mp hle2
      linarith
    have h5 : ⌊(tW : ℚ) / ((w : ℚ) / (h : ℚ))⌋ ≤ ((tH : ℕ) : ℤ) := by
      have h6 := Int.floor_le_floor hq
      rwa [Int.floor_natCast] at h6
    exact Int.toNat_le.mpr h5

/-- Bounds for the Python centering offset `(t - s) // 2` when `s ≤ t`. -/
lemma fdiv_center_bounds {t s : ℕ} (hs : s ≤ t) :
    0 ≤ Int.fdiv ((t : ℤ) - (s : ℤ)) 2 ∧
      Int.fdiv ((t : ℤ) - (s : ℤ)) 2 + (s : ℤ) ≤ (t : ℤ) := by
  have he := Int.fdiv_eq_ediv ((t : ℤ) - (s : ℤ)) (show (0 : ℤ) ≤ 2 by decide)
  rw [he]
  omega

/-- C2 counterexample: for an image of width 2 and height 3 fitted to a
100 by 100 target, the target ratio exceeds the image ratio, and the code
computes a scaled width of `int(100 * (2/3)) = 66`, while rounding to
nearest as the claim states would give `round(100 * (2/3)) = 67`. -/
theorem scaled_size_truncates_not_rounds :
    ((100 : ℚ) / (100 : ℚ) > (2 : ℚ) / (3 : ℚ)) ∧
    scaled_size 2 3 100 100 = (66, 100) ∧
    scaled_size_spec_round 2 3 100 100 = (67, 100) ∧
    scaled_size 2 3 100 100 ≠ scaled_size_spec_round 2 3 100 100 := by
  have h1 : scaled_size 2 3 100 100 = (66, 100) := by
    norm_num [scaled_size, pyInt]
    rfl
  have h2 : scaled_size_spec_round 2 3 100 100 = (67, 100) := by
    norm_num [scaled_size_spec_round, round_eq]
    rfl
  refine ⟨by norm_num, h1, h2, ?_⟩
  rw [h1, h2]
  decide

/-- C2 (amended): the Display Fitter computes the scaled dimensions with the
claimed branch structure, but the non-target dimension is truncated
(`int()`, floor for these nonnegative quantities) rather than rounded to
nearest: if `targetWidth/targetHeight > w/h` the result is
`(floor(targetHeight * (w/h)), targetHeight)`, otherwise
`(targetWidth, floor(targetWidth / (w/h)))`. -/
theorem scaled_size_eq_spec_floor (w h tW tH : ℕ) (hw : 0 < w) (hh : 0 < h) :
    scaled_size w h tW tH = scaled_size_spec_floor w h tW tH := by
  unfold scaled_size scaled_size_spec_floor
  split
  · rw [pyInt_eq_floor (by positivity)]
  · rw [pyInt_eq_floor (by positivity)]

/-- Witness for C2 amended theorem at the counterexample input. -/
theorem scaled_size_eq_spec_floor_witness :
    0 < 2 ∧ 0 < 3 ∧ scaled_size 2 3 100 100 = scaled_size_spec_floor 2 3 100 100 :=
  ⟨by decide, by decide, scaled_size_eq_spec_floor 2 3 100 100 (by decide) (by decide)⟩

/-- C3: for positive image and target dimensions, `resize_image` returns a
canvas of exactly the target size, pastes the scaled image at the centering
offsets computed by floor division, the scaled image lies entirely inside
the canvas (no cropping), and a 100 by 100 input fitted into 200 by 100
yields a 100 by 100 scaled image with 50 pixel bars left and right. -/
theorem resize_image_exact_fit (w h tW tH : ℕ)
    (hw : 0 < w) (hh : 0 < h) (htW : 0 < tW) (htH : 0 < tH) :
    (resize_image w h tW tH).width = tW ∧
    (resize_image w h tW tH).height = tH ∧
    (resize_image w h tW tH).pasteX =
      Int.fdiv ((tW : ℤ) - ((resize_image w h tW tH).scaledW : ℤ)) 2 ∧
    (resize_image w h tW tH).pasteY =
      Int.fdiv ((tH : ℤ) - ((resize_image w h tW tH).scaledH : ℤ)) 2 ∧
    0 ≤ (resize_image w h tW tH).pasteX ∧
    (resize_image w h tW tH).pasteX + ((resize_image w h tW tH).scaledW : ℤ) ≤ (tW : ℤ) ∧
    0 ≤ (resize_image w h tW tH).pasteY ∧
    (resize_image w h tW tH).pasteY + ((resize_image w h tW tH).scaledH : ℤ) ≤ (tH : ℤ) ∧
    resize_image 100 100 200 100 = ⟨200, 100, 50, 0, 100, 100⟩ := by
  obtain ⟨hW, hH⟩ := scaled_size_le w h tW tH hw hh htH
  obtain ⟨hx0, hx1⟩ := fdiv_center_bounds (t := tW) (s := (scaled_size w h tW tH).1) hW
  obtain ⟨hy0, hy1⟩ := fdiv_center_bounds (t := tH) (s := (scaled_size w h tW tH).2) hH
  have hconc : resize_image 100 100 200 100 = ⟨200, 100, 50, 0, 100, 100⟩ := by
    have hs : scaled_size 100 100 200 100 = (100, 100) := by
      norm_num [scaled_size, pyInt]
      rfl
    simp [resize_image, hs]
  exact ⟨rfl, rfl, rfl, rfl, hx0, hx1, hy0, hy1, hconc⟩

/-- Witness for C3 at the instance named by the claim. -/
theorem resize_image_exact_fit_witness :
    0 < 100 ∧ 0 < 200 ∧
    (resize_image 100 100 200 100).width = 200 ∧
    (resize_image 100 100 200 100).height = 100 := by
  have h := resize_image_exact_fit 100 100 200 100
    (by decide) (by decide) (by decide) (by decide)
  exact ⟨by decide, by decide, h.1, h.2.1⟩

/-! ## Settings (`load_settings` / `get_setting`, random_meme.py lines 100-133) -/

/-- A JSON-like Python value, as handled by the settings and history code. -/
inductive JValue where
  | null
  | num (n : ℤ)
  | str (s : String)
  | list (xs : List JValue)
  | dict (entries : List (String × JValue))

/-- One splitting step over a character list; see `pySplitDot`. -/
def splitChars (sep : Char) : List Char → List (List Char)
  | [] => [[]]
  | c :: rest =>
    match splitChars sep rest with
    | [] => [[]]
    | g :: gs => if c = sep then [] :: g :: gs else (c :: g) :: gs

/-- Python `key.split('.')`: split on every dot, keeping empty segments. -/
def pySplitDot (s : String) : List String :=
  (splitChars '.' s.data).map fun cs => String.mk cs

/-- Python `value[k]` inside `get_setting`: succeeds only when `value` is a
dict that has the key; every other case raises `KeyError` or `TypeError`,
both of which `get_setting` catches (modelled as `none`). -/
def lookupKey : JValue → String → Option JValue
  | .dict es, k => es.lookup k
  | _, _ => none

/-- The lookup loop of `get_setting` (lines 112-114): walk the dotted path,
failing as soon as any step fails. -/
def lookupPath : JValue → List String → Option JValue
  | v, [] => some v
  | v, k :: ks =>
    match lookupKey v k with
    | some v2 => lookupPath v2 ks
    | none => none

/-- `DEFAULT_SETTINGS` (random_meme.py lines 26-43). -/
def DEFAULT_SETTINGS : JValue :=
  .dict [("font", .dict [("name", .str "arial.ttf"), ("size", .num 40)]),
         ("bottom_strip_height", .num 50),
         ("max_history", .num 100),
         ("subreddits", .list [.null, .str "programmingmemes",
            .str "ProgrammerHumor", .str "lotrmemes", .str "MEOW_IRL",
            .str "YouSeeComrade", .str "DunderMifflin", .str "workmemes"])]

/-- Python `dict.get(key)`: the value, or `None` when absent (also `None`
when the receiver is not a dict, which cannot happen for its one call site
`DEFAULT_SETTINGS.get(key)`). -/
def dictGet (v : JValue) (k : String) : JValue :=
  (lookupKey v k).getD .null

/-- `load_settings` (lines 119-130): the parsed settings file, or
`DEFAULT_SETTINGS` when the file is absent (`FileNotFoundError`). -/
def load_settings (file : Option JValue) : JValue :=
  match file with
  | some s => s
  | none => DEFAULT_SETTINGS

/-- `get_setting` (lines 100-117): walk the dotted key through `settings`;
on `KeyError`/`TypeError` return `default` when it is not `None`, else
`DEFAULT_SETTINGS.get(key)` — a top-level lookup with the undotted key. -/
def get_setting (settings : JValue) (key : String) (default : JValue) : JValue :=
  match lookupPath settings (pySplitDot key) with
  | some v => v
  | none =>
    match default with
    | .null => dictGet DEFAULT_SETTINGS key
    | d => d

/-- C6: evaluation of `get_setting` at the failing input.  With a settings
file that is present but lacks the `font` key (content `{}`), the nested
keys `font.size` and `font.name` fall back to
`DEFAULT_SETTINGS.get("font.size")`, which is `None` because the defaults
are nested, so the caller receives `None` instead of the built-in defaults
40 and `arial.ttf`.  With the settings file absent the defaults are reached
(the whole default dict is loaded), and missing top-level keys such as
`max_history` and `bottom_strip_height` do fall back correctly. -/
theorem get_setting_nested_default_lost :
    get_setting (load_settings (some (JValue.dict []))) "font.size" JValue.null
      = JValue.null ∧
    get_setting (load_settings (some (JValue.dict []))) "font.name" JValue.null
      = JValue.null ∧
    get_setting (load_settings none) "font.size" JValue.null = JValue.num 40 ∧
    get_setting (load_settings none) "font.name" JValue.null
      = JValue.str "arial.ttf" ∧
    get_setting (load_settings (some (JValue.dict []))) "max_history" JValue.null
      = JValue.num 100 ∧
    get_setting (load_settings (some (JValue.dict []))) "bottom_strip_height"
      JValue.null = JValue.num 50 :=
  ⟨rfl, rfl, rfl, rfl, rfl, rfl⟩

/-! ## Image Compositor (`add_title_to_image`, random_meme.py lines 135-180) -/

/-- The caption margin in pixels (line 156). -/
def margin : ℕ := 20

/-- The per-line character budget `int(max_width / 20)` with
`max_width = image.width - 2 * margin` (lines 156-158), passed to
`textwrap.fill`. -/
def wrap_width (imageWidth : ℤ) : ℤ :=
  let max_width : ℤ := imageWidth - 2 * (margin : ℤ)
  pyInt ((max_width : ℚ) / 20)

/-- Geometry of the image produced by `add_title_to_image`: the new canvas
size and the vertical offset at which the source image is pasted. -/
structure ComposedImage where
  width : ℕ
  height : ℕ
  pasteY : ℕ
deriving DecidableEq

/-- `add_title_to_image` (lines 135-180): measure the wrapped caption
(`textBBoxHeight` is the rendered bounding box height
`text_bbox[3] - text_bbox[1]`, an external font measurement), set
`text_height = textBBoxHeight + 2 * margin`, allocate a canvas of
`(width, height + text_height + bottom_strip_height)` and paste the source
at `(0, text_height)`. -/
def add_title_to_image (w h textBBoxHeight bottomStripHeight : ℕ) : ComposedImage :=
  let text_height := textBBoxHeight + 2 * margin
  { width := w
    height := h + text_height + bottomStripHeight
    pasteY := text_height }

/-- C4: `add_title_to_image` keeps the source width, its output height is
the source height plus the caption band (bounding box height plus twice the
20 pixel margin) plus the bottom strip, the source is pasted at vertical
offset equal to the caption band height, and the configured bottom strip
height defaults to 50. -/
theorem add_title_to_image_dims (w h bbox strip : ℕ) :
    (add_title_to_image w h bbox strip).width = w ∧
    (add_title_to_image w h bbox strip).height = h + (bbox + 2 * margin) + strip ∧
    (add_title_to_image w h bbox strip).pasteY = bbox + 2 * margin ∧
    get_setting (load_settings none) "bottom_strip_height" JValue.null
      = JValue.num 50 :=
  ⟨rfl, rfl, rfl, rfl⟩

/-- C5: the word-wrap character budget equals
`int((imageWidth - 2 * margin) / 20)`, which for widths of at least
`2 * margin` is the integer floor division `(imageWidth - 40) / 20`; for an
image of width 820 it is 39 characters per line. -/
theorem wrap_width_spec (w : ℤ) (hw : 2 * (margin : ℤ) ≤ w) :
    wrap_width w = (w - 2 * (margin : ℤ)) / 20 ∧ wrap_width 820 = 39 := by
  constructor
  · show pyInt (((w - 2 * (margin : ℤ) : ℤ) : ℚ) / 20) = (w - 2 * (margin : ℤ)) / 20
    have hz : (0 : ℤ) ≤ w - 2 * (margin : ℤ) := by
      simp only [margin] at hw ⊢
      omega
    have h0 : (0 : ℚ) ≤ ((w - 2 * (margin : ℤ) : ℤ) : ℚ) / 20 :=
      div_nonneg (by exact_mod_cast hz) (by norm_num)
    rw [pyInt_eq_floor h0]
    rw [show (20 : ℚ) = ((20 : ℕ) : ℚ) by norm_num]
    rw [Rat.floor_intCast_div_natCast (w - 2 * (margin : ℤ)) 20]
    norm_num
  · show pyInt (((820 - 2 * (margin : ℤ) : ℤ) : ℚ) / 20) = 39
    norm_num [margin, pyInt]

/-- Witness for C5 at image width 820. -/
theorem wrap_width_spec_witness :
    2 * (margin : ℤ) ≤ 820 ∧ wrap_width 820 = 39 :=
  ⟨by decide, (wrap_width_spec 820 (by decide)).2⟩

/-! ## Deduplicating Fetcher (`get_random_meme`, random_meme.py lines 67-98) -/

/-- `max_attempts = 25` (line 78). -/
def max_attempts : ℕ := 25

/-- Observable outcome of one run of the fetch loop: the returned candidate
(`None, None` is modelled as `none`), the number of Meme API calls made
(`requests.get`, line 87, once per loop iteration), the number of
`save_history` calls (line 96), and the history written by `save_history`
when it is called. -/
structure FetchResult where
  result : Option (String × String)
  calls : ℕ
  saves : ℕ
  saved : Option (List String)
deriving DecidableEq

/-- The attempt loop of `get_random_meme` (lines 80-97).  `source i` is the
outcome of the API call on attempt `i` — `none` for a non-200 response,
`some (title, url)` for a parsed 200 response (the uniform random subreddit
choice on lines 81-86 only shapes the request and is absorbed into
`source`).  A duplicate URL or a failed call consumes the attempt; a novel
URL appends to the history, truncates, saves, and returns. -/
def fetchLoop (source : ℕ → Option (String × String)) (history : List String) :
    ℕ → ℕ → FetchResult
  | _, 0 => ⟨none, 0, 0, none⟩
  | attempt, fuel + 1 =>
    match source attempt with
    | none =>
      let r := fetchLoop source history (attempt + 1) fuel
      ⟨r.result, r.calls + 1, r.saves, r.saved⟩
    | some (title, url) =>
      if url ∈ history then
        let r := fetchLoop source history (attempt + 1) fuel
        ⟨r.result, r.calls + 1, r.saves, r.saved⟩
      else
        ⟨some (title, url), 1, 1, some (updateHistory history url)⟩

/-- `get_random_meme` (lines 67-98): run the loop for `max_attempts`
attempts over the loaded history. -/
def get_random_meme (source : ℕ → Option (String × String))
    (history : List String) : FetchResult :=
  fetchLoop source history 0 max_attempts

/-- The bundled fallback image used by `__main__` (line 345). -/
def fallback_image_path : String := "fallback_balrog.jpg"

/-- The image-path selection of `__main__` (lines 341-345): when
`meme_url` is truthy the path comes from `download_image`, otherwise the
bundled fallback image is used.  `download` models `download_image`
(`none` when the image download fails). -/
def main_image_path (r : FetchResult) (download : String → Option String) :
    Option String :=
  match r.result with
  | some (_, url) => if url = "" then some fallback_image_path else download url
  | none => some fallback_image_path

/-- When every successful response is a duplicate, the loop burns every
attempt: one API call per unit of fuel, no result, no save. -/
lemma fetchLoop_all_dup (source : ℕ → Option (String × String))
    (history : List String)
    (hdup : ∀ i t u, source i = some (t, u) → u ∈ history) :
    ∀ fuel attempt, fetchLoop source history attempt fuel = ⟨none, fuel, 0, none⟩ := by
  intro fuel
  induction fuel with
  | zero => intro attempt; rfl
  | succ n ih =>
    intro attempt
    cases hs : source attempt with
    | none => simp [fetchLoop, hs, ih (attempt + 1)]
    | some p =>
      obtain ⟨t, u⟩ := p
      have hmem : u ∈ history := hdup attempt t u hs
      simp [fetchLoop, hs, hmem, ih (attempt + 1)]

/-- C7: if on every attempt the source either fails or returns a URL already
present in history, `get_random_meme` makes exactly 25 API calls
(`max_attempts = 25`), returns no candidate, never saves, and `__main__`
then falls back to the bundled default image path. -/
theorem get_random_meme_exhaustion (source : ℕ → Option (String × String))
    (history : List String)
    (hdup : ∀ i t u, source i = some (t, u) → u ∈ history) :
    get_random_meme source history = ⟨none, 25, 0, none⟩ ∧
    max_attempts = 25 ∧
    (∀ download, main_image_path (get_random_meme source history) download
      = some fallback_image_path) := by
  have h := fetchLoop_all_dup source history hdup max_attempts 0
  refine ⟨h, rfl, fun download => ?_⟩
  rw [get_random_meme] at *
  rw [h]
  rfl

/-- Witness for C7: a source that always serves the single already-seen URL. -/
theorem get_random_meme_exhaustion_witness :
    get_random_meme (fun _ => some ("t", "u")) ["u"] = ⟨none, 25, 0, none⟩ := by
  have h := get_random_meme_exhaustion (fun _ => some ("t", "u")) ["u"]
    (by intro i t u hs; simp at hs; simp [hs])
  exact h.1

/-- The loop saves history exactly when it returns a candidate, and when it
returns none nothing was ever passed to `save_history`. -/
lemma fetchLoop_saves (source : ℕ → Option (String × String))
    (history : List String) :
    ∀ fuel attempt,
      (fetchLoop source history attempt fuel).saves =
        (if (fetchLoop source history attempt fuel).result.isSome then 1 else 0) ∧
      ((fetchLoop source history attempt fuel).result = none →
        (fetchLoop source history attempt fuel).saved = none) := by
  intro fuel
  induction fuel with
  | zero => exact fun attempt => ⟨rfl, fun _ => rfl⟩
  | succ n ih =>
    intro attempt
    cases hs : source attempt with
    | none => simpa [fetchLoop, hs] using ih (attempt + 1)
    | some p =>
      obtain ⟨t, u⟩ := p
      by_cases hmem : u ∈ history
      · simpa [fetchLoop, hs, hmem] using ih (attempt + 1)
      · simp [fetchLoop, hs, hmem]

/-- C10: `save_history` is called at most once per `get_random_meme`
invocation — exactly once when a novel candidate is returned and zero times
on exhaustion — so when every attempt fails or is a duplicate the history
file is left unchanged. -/
theorem get_random_meme_saves_once (source : ℕ → Option (String × String))
    (history : List String) :
    (get_random_meme source history).saves ≤ 1 ∧
    (get_random_meme source history).saves =
      (if (get_random_meme source history).result.isSome then 1 else 0) ∧
    ((get_random_meme source history).result = none →
      (get_random_meme source history).saved = none) := by
  have h := fetchLoop_saves source history max_attempts 0
  refine ⟨?_, h.1, h.2⟩
  rw [get_random_meme, h.1]
  split <;> omega

/-- Witness for C10: an always-failing source exhausts with no save. -/
theorem get_random_meme_saves_once_witness :
    (get_random_meme (fun _ => none) []).result = none ∧
    (get_random_meme (fun _ => none) []).saved = none :=
  ⟨rfl, (get_random_meme_saves_once (fun _ => none) []).2.2 rfl⟩

/-! ## Screen Resolution Probe (`get_screen_resolution`, lines 182-204) -/

/-- The value of `platform.system()`: one of the three recognized names, or
anything else (for example `FreeBSD` or `Java`). -/
inductive Platform where
  | windows
  | linux
  | darwin
  | other
deriving DecidableEq

/-- `get_screen_resolution` (lines 182-204).  `probe` is the outcome of the
platform-specific measurement code inside the `try` block: `some (w, h)`
when it produces a resolution, `none` when it raises (missing tool, parse
error, headless display).  A raise is caught by the bare `except`, which
returns the fallback `(1920, 1080)`.  On an unrecognized platform no branch
of the `if` chain runs and no exception is raised, so the function falls
off the end of the `try` block and implicitly returns Python `None` —
modelled as `none`. -/
def get_screen_resolution (p : Platform) (probe : Option (ℤ × ℤ)) :
    Option (ℤ × ℤ) :=
  match p with
  | .other => none
  | _ =>
    match probe with
    | some r => some r
    | none => some (1920, 1080)

/-- C8: on the three recognized platforms any probing failure yields the
fallback `(1920, 1080)`, but on an unrecognized platform the code returns
Python `None` (falling off the `try` block) instead of the claimed
`(1920, 1080)` — and that `None` is not a pair, so the tuple unpacking in
`set_wallpaper` (line 289) would crash. -/
theorem get_screen_resolution_unknown_platform :
    get_screen_resolution Platform.windows none = some (1920, 1080) ∧
    get_screen_resolution Platform.linux none = some (1920, 1080) ∧
    get_screen_resolution Platform.darwin none = some (1920, 1080) ∧
    get_screen_resolution Platform.other none = none ∧
    get_screen_resolution Platform.other (some (800, 600)) = none ∧
    get_screen_resolution Platform.other none ≠ some (1920, 1080) := by
  refine ⟨rfl, rfl, rfl, rfl, rfl, by decide⟩

/-! ## Wallpaper Applier (`set_wallpaper`, random_meme.py lines 275-338) -/

/-- Outcome of a Python call: a returned value, or an uncaught exception
propagating to the caller. -/
inductive PyResult (α : Type) where
  | ok (val : α)
  | raised
deriving DecidableEq

/-- `set_wallpaper` (lines 275-338).  `resizeOk` is whether the preliminary
steps on lines 288-292 (`Image.open`, resolution unpacking, `resize_image`,
`image.save`) complete without raising — these run BEFORE the `try` block,
so a raise there propagates.  `osOk` is whether the platform-specific
mechanism inside the `try` block (lines 297-333) completes without raising;
a raise there is caught and converted to `False` (lines 336-338), and
otherwise the function returns `True` (line 335). -/
def set_wallpaper (resizeOk osOk : Bool) : PyResult Bool :=
  if resizeOk then
    (if osOk then PyResult.ok true else PyResult.ok false)
  else
    PyResult.raised

/-- C9 counterexample: when the preliminary image-open/resize/save steps
raise (for example the image path does not exist), the exception escapes
`set_wallpaper` — it does not return a boolean, contradicting the claim
that every failure during its execution is converted into `False`. -/
theorem set_wallpaper_raises_before_try :
    set_wallpaper false true = PyResult.raised ∧
    ¬ ∃ b : Bool, set_wallpaper false true = PyResult.ok b := by
  refine ⟨rfl, ?_⟩
  rintro ⟨b, hb⟩
  simp [set_wallpaper] at hb

/-- C9 (amended): once the preliminary resize steps (lines 288-292, before
the `try` block) complete, `set_wallpaper` returns a boolean for every
outcome of the OS-specific mechanism: `True` when it completes and `False`
when it raises, so no failure inside the `try` block propagates. -/
theorem set_wallpaper_catches_os_failures (osOk : Bool) :
    set_wallpaper true osOk = PyResult.ok osOk := by
  cases osOk <;> rfl

end RandomMeme
